import Mathlib

/-!
Verification development for the EVerest framework orchestration core.

The definitions below are shallow embeddings of the C++ sources:
`src/manager.cpp` (startup barrier, module supervisor), `src/system_unix.cpp`
(fork/exec pipe protocol), `lib/error/error_manager_req_global.cpp`
(global error bus), `include/framework/everest.hpp` (framework singleton)
and the configuration loading behaviour exercised by `tests/test_config.cpp`.
-/

namespace Everest

/-! ## Status FIFO events (`utils/status_fifo.hpp`, spec section 6) -/

/-- Lifecycle progress events written to the status sink. -/
inductive StatusEvent where
  | WAITING_FOR_STANDALONE_MODULES
  | ALL_MODULES_STARTED
  | MODULE_FAILED (id : String)
  | SHUTTING_DOWN
deriving DecidableEq, Repr

/-! ## Startup barrier (`manager.cpp`, `module_ready_handler`)

`modules_ready` is the global `std::map<std::string, ModuleReadyInfo>`;
we embed it as an association list of `(module name, ready flag)` pairs,
kept in the key order the `std::map` iterates in.  The handler body is
translated line by line from `manager.cpp` lines 285-321. -/

/-- Barrier state: the `modules_ready` map, the list of events written to
the status FIFO, and the number of publications of the global ready topic
(each publication carries payload `true`). -/
structure BarrierState where
  modules_ready : List (String × Bool)
  status_events : List StatusEvent
  published_ready : Nat
deriving DecidableEq, Repr

/-- Initial barrier state: every tracked module has `ready = false`
(`modules_ready.emplace(module_name, ModuleReadyInfo{false, nullptr})`). -/
def initBarrier (names : List String) : BarrierState :=
  { modules_ready := names.map (fun n => (n, false))
    status_events := []
    published_ready := 0 }

/-- `modules_ready.at(module_name).ready = json.get<bool>()`: update the
flag of `module_name` to the received payload. -/
def updateReady (mr : List (String × Bool)) (module_name : String) (payload : Bool) :
    List (String × Bool) :=
  mr.map (fun p => if p.1 = module_name then (p.1, payload) else p)

/-- The ready handler registered for each non-ignored module
(`manager.cpp` lines 285-321).  After storing the payload it counts the
ready modules (`modules_spawned`); if all modules are ready it emits
`ALL_MODULES_STARTED` and publishes the global ready topic; otherwise, if
there are standalone modules and the ready count equals the number of
non-standalone modules, it emits `WAITING_FOR_STANDALONE_MODULES`. -/
def module_ready_handler (standalone_modules : List String) (st : BarrierState)
    (module_name : String) (payload : Bool) : BarrierState :=
  if (updateReady st.modules_ready module_name payload).all (fun p => p.2) then
    { modules_ready := updateReady st.modules_ready module_name payload
      status_events := st.status_events ++ [StatusEvent.ALL_MODULES_STARTED]
      published_ready := st.published_ready + 1 }
  else if standalone_modules ≠ [] ∧
      ((updateReady st.modules_ready module_name payload).filter (fun p => p.2)).length =
        (updateReady st.modules_ready module_name payload).length - standalone_modules.length then
    { modules_ready := updateReady st.modules_ready module_name payload
      status_events := st.status_events ++ [StatusEvent.WAITING_FOR_STANDALONE_MODULES]
      published_ready := st.published_ready }
  else
    { st with modules_ready := updateReady st.modules_ready module_name payload }

/-- Process a sequence of per-module ready messages through the barrier. -/
def runBarrier (standalone_modules : List String) (events : List (String × Bool))
    (st : BarrierState) : BarrierState :=
  events.foldl (fun s ev => module_ready_handler standalone_modules s ev.1 ev.2) st

/-! Helper lemmas about the barrier. -/

theorem module_ready_handler_modules_ready (standalone_modules : List String)
    (st : BarrierState) (n : String) (b : Bool) :
    (module_ready_handler standalone_modules st n b).modules_ready =
      updateReady st.modules_ready n b := by
  unfold module_ready_handler
  split
  · rfl
  · split <;> rfl

theorem module_ready_handler_published (standalone_modules : List String)
    (st : BarrierState) (n : String) (b : Bool) :
    (module_ready_handler standalone_modules st n b).published_ready =
      (if (updateReady st.modules_ready n b).all (fun p => p.2) then
        st.published_ready + 1 else st.published_ready) := by
  unfold module_ready_handler
  split
  · simp_all
  · split <;> simp_all

theorem module_ready_handler_published_le (standalone_modules : List String)
    (st : BarrierState) (n : String) (b : Bool) :
    st.published_ready ≤ (module_ready_handler standalone_modules st n b).published_ready := by
  rw [module_ready_handler_published]
  split <;> omega

theorem runBarrier_published_le (standalone_modules : List String)
    (events : List (String × Bool)) (st : BarrierState) :
    st.published_ready ≤ (runBarrier standalone_modules events st).published_ready := by
  induction events generalizing st with
  | nil => simp [runBarrier]
  | cons ev rest ih =>
    calc st.published_ready
        ≤ (module_ready_handler standalone_modules st ev.1 ev.2).published_ready :=
          module_ready_handler_published_le _ _ _ _
      _ ≤ _ := ih _

/-- Core lemma: if running a sequence of ready events increased the global
ready publication count, then every module tracked at the start either was
already flagged ready or received a `(name, true)` event in the sequence. -/
theorem runBarrier_publish_requires_ready (standalone_modules : List String)
    (events : List (String × Bool)) (st : BarrierState)
    (hpub : st.published_ready < (runBarrier standalone_modules events st).published_ready) :
    ∀ p ∈ st.modules_ready, p.2 = true ∨ (p.1, true) ∈ events := by
  induction events generalizing st with
  | nil =>
    simp [runBarrier] at hpub
  | cons ev rest ih =>
    intro p hp
    have hrun : runBarrier standalone_modules (ev :: rest) st =
        runBarrier standalone_modules rest (module_ready_handler standalone_modules st ev.1 ev.2) := by
      simp [runBarrier]
    by_cases hstep :
        st.published_ready < (module_ready_handler standalone_modules st ev.1 ev.2).published_ready
    · -- the publication happened at this step: all flags are true after the update
      have hall : (updateReady st.modules_ready ev.1 ev.2).all (fun p => p.2) = true := by
        by_contra hAll
        rw [module_ready_handler_published] at hstep
        simp only [Bool.not_eq_true] at hAll
        rw [hAll] at hstep
        simp at hstep
      have hmem : (if p.1 = ev.1 then (p.1, ev.2) else p) ∈ updateReady st.modules_ready ev.1 ev.2 := by
        unfold updateReady
        exact List.mem_map_of_mem _ hp
      rw [List.all_eq_true] at hall
      have hflag := hall _ hmem
      by_cases hpe : p.1 = ev.1
      · rw [if_pos hpe] at hflag
        have hev2 : ev.2 = true := hflag
        right
        rw [hpe, ← hev2]
        exact List.mem_cons_self _ _
      · rw [if_neg hpe] at hflag
        left
        exact hflag
    · -- the publication happened later in the run
      have hle := module_ready_handler_published_le standalone_modules st ev.1 ev.2
      rw [hrun] at hpub
      have hpub' : (module_ready_handler standalone_modules st ev.1 ev.2).published_ready <
          (runBarrier standalone_modules rest
            (module_ready_handler standalone_modules st ev.1 ev.2)).published_ready := by omega
      have hp' : (if p.1 = ev.1 then (p.1, ev.2) else p) ∈
          (module_ready_handler standalone_modules st ev.1 ev.2).modules_ready := by
        rw [module_ready_handler_modules_ready]
        unfold updateReady
        exact List.mem_map_of_mem _ hp
      have hcons := ih _ hpub' _ hp'
      by_cases hpe : p.1 = ev.1
      · rw [if_pos hpe, hpe] at hcons
        rcases hcons with h | h
        · have hev2 : ev.2 = true := h
          right
          rw [hpe, ← hev2]
          exact List.mem_cons_self _ _
        · right
          rw [hpe]
          exact List.mem_cons_of_mem _ h
      · rw [if_neg hpe] at hcons
        rcases hcons with h | h
        · left; exact h
        · right; exact List.mem_cons_of_mem _ h

/-! ## Module spawning (`manager.cpp`, `start_modules`, lines 247-370)

Filesystem paths are embedded as lists of components; `path_exists` stands
for `std::filesystem::exists`. -/

/-- The interpreter language chosen for a module (`ModuleStartInfo::Language`). -/
inductive Language where
  | cpp
  | javascript
  | python
deriving DecidableEq, Repr

/-- `ModuleStartInfo`: what `spawn_modules` needs to fork one module. -/
structure ModuleStartInfo where
  name : String
  language : Language
  path : List String
deriving DecidableEq, Repr

/-- The probing sequence of `start_modules` (`manager.cpp` lines 336-366):
native binary at `modules_dir/type/type`, then `modules_dir/type/index.js`,
then `modules_dir/type/module.py`; the first existing path decides. -/
def probe_module_entrypoint (path_exists : List String → Bool) (modules_dir : List String)
    (module_type : String) : Option (Language × List String) :=
  if path_exists (modules_dir ++ [module_type, module_type]) then
    some (Language.cpp, modules_dir ++ [module_type, module_type])
  else if path_exists (modules_dir ++ [module_type, "index.js"]) then
    some (Language.javascript, modules_dir ++ [module_type, "index.js"])
  else if path_exists (modules_dir ++ [module_type, "module.py"]) then
    some (Language.python, modules_dir ++ [module_type, "module.py"])
  else
    none

/-- Result of the `start_modules` loop: the module names added to the
`modules_ready` map (ready handler registered), and the
`modules_to_spawn` list handed to `spawn_modules`. -/
structure StartModulesResult where
  tracked : List String
  to_spawn : List ModuleStartInfo
deriving DecidableEq, Repr

/-- The `start_modules` loop over `main_config` (a list of
`(module_name, module_type)` entries, in map iteration order): ignored
modules are skipped entirely; every other module is tracked by the
barrier; standalone modules are not spawned; for the rest the entrypoint
is probed, and a failed probe aborts startup with a fatal error
(`throw std::runtime_error`). -/
def start_modules (path_exists : List String → Bool) (modules_dir : List String)
    (main_config : List (String × String))
    (ignored_modules standalone_modules : List String) : Except String StartModulesResult :=
  match main_config with
  | [] => Except.ok ⟨[], []⟩
  | (module_name, module_type) :: rest =>
    if ignored_modules.contains module_name then
      start_modules path_exists modules_dir rest ignored_modules standalone_modules
    else if standalone_modules.contains module_name then
      match start_modules path_exists modules_dir rest ignored_modules standalone_modules with
      | Except.ok r => Except.ok ⟨module_name :: r.tracked, r.to_spawn⟩
      | Except.error e => Except.error e
    else
      match probe_module_entrypoint path_exists modules_dir module_type with
      | some (lang, path) =>
        match start_modules path_exists modules_dir rest ignored_modules standalone_modules with
        | Except.ok r => Except.ok ⟨module_name :: r.tracked, ⟨module_name, lang, path⟩ :: r.to_spawn⟩
        | Except.error e => Except.error e
      | none =>
        Except.error ("module: " ++ module_name ++ " (" ++ module_type ++
          ") cannot be loaded because no Binary, JavaScript or Python module has been found")

/-! ## Claim C1 -/

/-- Claim C1, counterexample: with one module `a`, a duplicate ready
message arriving after the global ready signal was published causes a
second publication — the handler re-publishes whenever all flags are true,
so `global_ready` is not published exactly once. -/
theorem c1_duplicate_ready_republishes :
    (runBarrier [] [("a", true), ("a", true)] (initBarrier ["a"])).published_ready = 2 ∧
      (2 : Nat) ≠ 1 := by
  constructor
  · rfl
  · decide

/-- Claim C1, amended: the global ready signal is published only after
every non-ignored module (standalone included) has emitted a ready message
with payload `true` at least once; but it is not published exactly once —
the handler publishes again on every ready message that leaves all flags
true, so a duplicate ready after the global ready causes a second
publication. -/
theorem c1_global_ready_only_after_all_ready
    (standalone_modules names : List String) (events : List (String × Bool))
    (hpub : 0 < (runBarrier standalone_modules events (initBarrier names)).published_ready)
    (m : String) (hm : m ∈ names) : (m, true) ∈ events := by
  have hinit : (initBarrier names).published_ready = 0 := rfl
  have hmain := runBarrier_publish_requires_ready standalone_modules events (initBarrier names)
    (by rw [hinit]; exact hpub)
  have hmem : (m, false) ∈ (initBarrier names).modules_ready := by
    unfold initBarrier
    exact List.mem_map_of_mem _ hm
  rcases hmain _ hmem with h | h
  · exact Bool.noConfusion h
  · exact h

/-- Witness for the amended claim C1 at a concrete run. -/
theorem c1_global_ready_witness :
    0 < (runBarrier [] [("a", true), ("b", true)] (initBarrier ["a", "b"])).published_ready ∧
      "a" ∈ ["a", "b"] ∧ ("a", true) ∈ [("a", true), ("b", true)] :=
  ⟨by decide, by decide,
    c1_global_ready_only_after_all_ready [] ["a", "b"] [("a", true), ("b", true)]
      (by decide) "a" (by decide)⟩

/-! ## Claim C5 -/

/-- Claim C5: the supervisor probes, in order, the native binary at
`modules_dir/type/type`, the JavaScript entrypoint `index.js`, and the
Python entrypoint `module.py`; the first existing path determines the
start language, and if none of the three exists, startup fails fatally. -/
theorem c5_probe_order (path_exists : List String → Bool) (modules_dir : List String)
    (module_type module_name : String) :
    (path_exists (modules_dir ++ [module_type, module_type]) = true →
      probe_module_entrypoint path_exists modules_dir module_type =
        some (Language.cpp, modules_dir ++ [module_type, module_type])) ∧
    (path_exists (modules_dir ++ [module_type, module_type]) = false →
      path_exists (modules_dir ++ [module_type, "index.js"]) = true →
      probe_module_entrypoint path_exists modules_dir module_type =
        some (Language.javascript, modules_dir ++ [module_type, "index.js"])) ∧
    (path_exists (modules_dir ++ [module_type, module_type]) = false →
      path_exists (modules_dir ++ [module_type, "index.js"]) = false →
      path_exists (modules_dir ++ [module_type, "module.py"]) = true →
      probe_module_entrypoint path_exists modules_dir module_type =
        some (Language.python, modules_dir ++ [module_type, "module.py"])) ∧
    (path_exists (modules_dir ++ [module_type, module_type]) = false →
      path_exists (modules_dir ++ [module_type, "index.js"]) = false →
      path_exists (modules_dir ++ [module_type, "module.py"]) = false →
      probe_module_entrypoint path_exists modules_dir module_type = none ∧
      ∃ msg, start_modules path_exists modules_dir [(module_name, module_type)] [] [] =
        Except.error msg) := by
  refine ⟨fun h1 => ?_, fun h1 h2 => ?_, fun h1 h2 h3 => ?_, fun h1 h2 h3 => ?_⟩
  · simp [probe_module_entrypoint, h1]
  · simp [probe_module_entrypoint, h1, h2]
  · simp [probe_module_entrypoint, h1, h2, h3]
  · have hnone : probe_module_entrypoint path_exists modules_dir module_type = none := by
      simp [probe_module_entrypoint, h1, h2, h3]
    refine ⟨hnone, ?_⟩
    refine ⟨"module: " ++ module_name ++ " (" ++ module_type ++
      ") cannot be loaded because no Binary, JavaScript or Python module has been found", ?_⟩
    simp [start_modules, hnone]

/-- Witness for claim C5: a module type whose directory only holds the
JavaScript entrypoint is started as JavaScript, and a module type with no
entrypoint at all makes startup fail. -/
theorem c5_probe_order_witness :
    ((fun p => p = ["mods", "T", "index.js"] : List String → Bool) (["mods"] ++ ["T", "T"]) = false ∧
      (fun p => p = ["mods", "T", "index.js"] : List String → Bool) (["mods"] ++ ["T", "index.js"]) = true ∧
      probe_module_entrypoint (fun p => p = ["mods", "T", "index.js"]) ["mods"] "T" =
        some (Language.javascript, ["mods"] ++ ["T", "index.js"])) ∧
    (probe_module_entrypoint (fun _ => false) ["mods"] "T" = none ∧
      ∃ msg, start_modules (fun _ => false) ["mods"] [("m", "T")] [] [] = Except.error msg) := by
  constructor
  · exact ⟨by decide, by decide,
      (c5_probe_order (fun p => p = ["mods", "T", "index.js"]) ["mods"] "T" "m").2.1
        (by decide) (by decide)⟩
  · exact (c5_probe_order (fun _ => false) ["mods"] "T" "m").2.2.2 rfl rfl rfl

/-! ## Claim C7 -/

/-- Claim C7, counterexample: with manager-started modules `a`, `b` and
standalone module `s`, the arrival order `a` ready, then `s` ready, makes
the status sink observe `WAITING_FOR_STANDALONE_MODULES` although the
manager-started module `b` is not ready (it never even emitted ready) —
so the event is not observed exactly when all manager-started modules are
ready while the standalone module is not. -/
theorem c7_waiting_observed_early :
    StatusEvent.WAITING_FOR_STANDALONE_MODULES ∈
        (runBarrier ["s"] [("a", true), ("s", true)] (initBarrier ["a", "b", "s"])).status_events ∧
      ("b", false) ∈
        (runBarrier ["s"] [("a", true), ("s", true)] (initBarrier ["a", "b", "s"])).modules_ready ∧
      ("b", true) ∉ [("a", true), ("s", true)] := by
  refine ⟨?_, ?_, by decide⟩
  · show StatusEvent.WAITING_FOR_STANDALONE_MODULES ∈ [StatusEvent.WAITING_FOR_STANDALONE_MODULES]
    decide
  · show ("b", false) ∈ [("a", true), ("b", false), ("s", true)]
    decide

/-- Claim C7, amended: `WAITING_FOR_STANDALONE_MODULES` is emitted when a
ready message makes the number of ready modules (standalone included)
equal the number of non-standalone modules while not all modules are
ready.  In the ordering where both manager-started modules report ready
before the standalone one, the status sink observes exactly
`WAITING_FOR_STANDALONE_MODULES` followed by `ALL_MODULES_STARTED`, and
the global ready signal is published once after the standalone module
reports; standalone modules are never handed to `spawn_modules` but are
tracked by the barrier. -/
theorem c7_standalone_barrier_scenario :
    (runBarrier ["s"] [("a", true), ("b", true), ("s", true)]
        (initBarrier ["a", "b", "s"])).status_events =
      [StatusEvent.WAITING_FOR_STANDALONE_MODULES, StatusEvent.ALL_MODULES_STARTED] ∧
    (runBarrier ["s"] [("a", true), ("b", true), ("s", true)]
        (initBarrier ["a", "b", "s"])).published_ready = 1 ∧
    start_modules (fun _ => true) ["mods"] [("a", "T"), ("b", "T"), ("s", "T")] [] ["s"] =
      Except.ok ⟨["a", "b", "s"],
        [⟨"a", Language.cpp, ["mods", "T", "T"]⟩, ⟨"b", Language.cpp, ["mods", "T", "T"]⟩]⟩ := by
  refine ⟨?_, rfl, rfl⟩
  rfl

/-! ## Supervisor reap loop and shutdown (`manager.cpp`, lines 372-407 and 648-692)

`kill_result` stands for the return value of the `kill()` syscall for a
given pid and signal (0 on success, nonzero on failure). -/

/-- The two signals `shutdown_modules` can send. -/
inductive Signal where
  | SIGTERM
  | SIGKILL
deriving DecidableEq, Repr

/-- `shutdown_modules` (`manager.cpp` lines 388-406): for every remaining
child, call `kill(pid, SIGTERM)`; only when that syscall itself returns
nonzero, immediately call `kill(pid, SIGKILL)`.  The returned list is the
sequence of signal deliveries attempted, in order. -/
def shutdown_modules (kill_result : Nat → Signal → Int) (modules : List (Nat × String)) :
    List (Nat × Signal) :=
  modules.foldl
    (fun acc child =>
      if kill_result child.1 Signal.SIGTERM ≠ 0 then
        acc ++ [(child.1, Signal.SIGTERM), (child.1, Signal.SIGKILL)]
      else
        acc ++ [(child.1, Signal.SIGTERM)])
    []

/-- What the manager does after a child exits: the attempted signal
deliveries, the events written to the status FIFO, and the process exit
code returned by `boot`. -/
structure SupervisorOutcome where
  signals : List (Nat × Signal)
  status_events : List StatusEvent
  exit_code : Nat
deriving DecidableEq, Repr

/-- The reap-loop branch of `boot` (`manager.cpp` lines 672-691) for a
module child dying while `modules_started` is true: the exit status is
logged, the child is erased from `module_handles`, `shutdown_modules` is
called on the remaining siblings, and `boot` returns `EXIT_FAILURE`.
Nothing is written to the status FIFO on this path.  An unknown pid
throws (`none` here). -/
def on_module_exit (kill_result : Nat → Signal → Int) (module_handles : List (Nat × String))
    (pid : Nat) : Option SupervisorOutcome :=
  match module_handles.lookup pid with
  | none => none
  | some _ =>
    some ⟨shutdown_modules kill_result (module_handles.filter (fun c => c.1 != pid)), [], 1⟩

theorem shutdown_modules_foldl_acc (kill_result : Nat → Signal → Int)
    (modules : List (Nat × String)) (acc : List (Nat × Signal)) :
    modules.foldl
      (fun acc child =>
        if kill_result child.1 Signal.SIGTERM ≠ 0 then
          acc ++ [(child.1, Signal.SIGTERM), (child.1, Signal.SIGKILL)]
        else
          acc ++ [(child.1, Signal.SIGTERM)])
      acc =
    acc ++ modules.flatMap (fun child =>
      (child.1, Signal.SIGTERM) ::
        (if kill_result child.1 Signal.SIGTERM ≠ 0 then [(child.1, Signal.SIGKILL)] else [])) := by
  induction modules generalizing acc with
  | nil => simp
  | cons child rest ih =>
    by_cases h : kill_result child.1 Signal.SIGTERM ≠ 0
    · rw [List.foldl_cons, if_pos h, ih, List.flatMap_cons, if_pos h]
      simp [List.append_assoc]
    · rw [List.foldl_cons, if_neg h, ih, List.flatMap_cons, if_neg h]
      simp [List.append_assoc]

theorem shutdown_modules_eq_bind (kill_result : Nat → Signal → Int)
    (modules : List (Nat × String)) :
    shutdown_modules kill_result modules =
      modules.flatMap (fun child =>
        (child.1, Signal.SIGTERM) ::
          (if kill_result child.1 Signal.SIGTERM ≠ 0 then [(child.1, Signal.SIGKILL)] else [])) := by
  unfold shutdown_modules
  simpa using shutdown_modules_foldl_acc kill_result modules []

/-! ## Claim C2 -/

/-- Claim C2, counterexample: two modules, child 1 exits while running,
and both `kill(…, SIGTERM)` syscalls succeed.  The supervisor sends only
SIGTERM to the remaining sibling — no SIGKILL and hence no grace-period
escalation — and writes nothing at all to the status sink, contradicting
the claimed failure-status publication and SIGTERM→SIGKILL escalation
after a 5 s grace period. -/
theorem c2_no_failure_status_published :
    (on_module_exit (fun _ _ => 0) [(1, "a"), (2, "b")] 1).map (fun o => o.status_events) =
        some [] ∧
      (on_module_exit (fun _ _ => 0) [(1, "a"), (2, "b")] 1).map (fun o => o.signals) =
        some [(2, Signal.SIGTERM)] := by
  constructor <;> rfl

/-- Claim C2, amended: if a module process exits while the fleet is
running, the supervisor logs the exit status, sends SIGTERM to every
remaining sibling and sends SIGKILL to a child immediately and only when
the SIGTERM syscall itself failed (there is no grace period), publishes
nothing to the status sink, and returns a non-zero exit code to the
host. -/
theorem c2_module_death_shutdown (kill_result : Nat → Signal → Int)
    (module_handles : List (Nat × String)) (pid : Nat) (name : String)
    (hfound : module_handles.lookup pid = some name) :
    on_module_exit kill_result module_handles pid =
      some
        ⟨(module_handles.filter (fun c => c.1 != pid)).flatMap (fun child =>
            (child.1, Signal.SIGTERM) ::
              (if kill_result child.1 Signal.SIGTERM ≠ 0 then [(child.1, Signal.SIGKILL)] else [])),
          [], 1⟩ ∧
      (1 : Nat) ≠ 0 := by
  constructor
  · unfold on_module_exit
    rw [hfound, shutdown_modules_eq_bind]
  · decide

/-- Witness for the amended claim C2: three children, child 1 dies, the
SIGTERM syscall fails for child 2 and succeeds for child 3. -/
theorem c2_module_death_shutdown_witness :
    ([(1, "a"), (2, "b"), (3, "c")] : List (Nat × String)).lookup 1 = some "a" ∧
      on_module_exit (fun p _ => if p = 2 then -1 else 0) [(1, "a"), (2, "b"), (3, "c")] 1 =
        some ⟨[(2, Signal.SIGTERM), (2, Signal.SIGKILL), (3, Signal.SIGTERM)], [], 1⟩ := by
  refine ⟨rfl, ?_⟩
  have h := c2_module_death_shutdown (fun p _ => if p = 2 then -1 else 0)
    [(1, "a"), (2, "b"), (3, "c")] 1 "a" rfl
  rw [h.1]
  rfl

/-! ## Fork/exec pipe protocol (`system_unix.cpp`, `SubProcess`) -/

/-- `MAX_PIPE_MESSAGE_SIZE` from `system_unix.hpp` (the header is not part
of src; the constant only bounds the message truncation). -/
def MAX_PIPE_MESSAGE_SIZE : Nat := 1024

/-- `SubProcess::send_error_and_exit` (`system_unix.cpp` lines 122-129):
the child writes at most `MAX_PIPE_MESSAGE_SIZE - 1` bytes of the error
message to the pipe, closes it, and exits with `EXIT_FAILURE` (1).  The
result is the pair (data written to the pipe, child exit code). -/
def send_error_and_exit (message : String) : String × Nat :=
  (⟨message.data.take (MAX_PIPE_MESSAGE_SIZE - 1)⟩, 1)

/-- The outcome of the parent's one-shot `read()` on the pipe. -/
inductive PipeReadResult where
  | readFailed
  | bytes (data : String)
  | eofClosed
deriving DecidableEq, Repr

/-- `SubProcess::check_child_executed` (`system_unix.cpp` lines 132-148):
`read()` returning -1 is a fatal communication error; any bytes read mean
the child did not complete `exec()` and the data is surfaced in the
exception text; zero bytes (write end closed by a successful exec) yield
the child pid. -/
def check_child_executed (pid : Nat) (r : PipeReadResult) : Except String Nat :=
  match r with
  | PipeReadResult.readFailed =>
    Except.error
      "Failed to communicate via pipe with forked child process. Syscall to read() failed, exiting"
  | PipeReadResult.bytes data =>
    Except.error ("Forked child process did not complete exec():\n" ++ data)
  | PipeReadResult.eofClosed => Except.ok pid

/-! ## Claim C6 -/

/-- Claim C6: a zero-byte read (exec succeeded) makes
`check_child_executed` return the child pid; any bytes read are surfaced
as a fatal startup error whose text names them; and the bytes a failing
child wrote via `send_error_and_exit` are its (truncated) pre-exec error
message, which is nonempty whenever the message is, so the parent indeed
fails fatally with an exception naming the message. -/
theorem c6_exec_pipe_protocol (pid : Nat) (message : String) (hmsg : message ≠ "") :
    check_child_executed pid PipeReadResult.eofClosed = Except.ok pid ∧
      (∀ data, check_child_executed pid (PipeReadResult.bytes data) =
        Except.error ("Forked child process did not complete exec():\n" ++ data)) ∧
      (send_error_and_exit message).2 ≠ 0 ∧
      check_child_executed pid (PipeReadResult.bytes (send_error_and_exit message).1) =
        Except.error ("Forked child process did not complete exec():\n" ++
          String.mk (message.data.take (MAX_PIPE_MESSAGE_SIZE - 1))) ∧
      (send_error_and_exit message).1 ≠ "" := by
  refine ⟨rfl, fun data => rfl, Nat.one_ne_zero, rfl, ?_⟩
  intro hempty
  apply hmsg
  have hdata : message.data.take (MAX_PIPE_MESSAGE_SIZE - 1) = [] := congrArg String.data hempty
  rw [List.take_eq_nil_iff] at hdata
  rcases hdata with h | h
  · cases h
  · cases message
    simp_all

/-- Witness for claim C6 at a concrete nonempty message. -/
theorem c6_exec_pipe_protocol_witness :
    ("boom" : String) ≠ "" ∧
      check_child_executed 42 PipeReadResult.eofClosed = Except.ok 42 ∧
      check_child_executed 42 (PipeReadResult.bytes (send_error_and_exit "boom").1) =
        Except.error ("Forked child process did not complete exec():\n" ++
          String.mk (("boom" : String).data.take (MAX_PIPE_MESSAGE_SIZE - 1))) :=
  ⟨by decide,
    (c6_exec_pipe_protocol 42 "boom" (by decide)).1,
    (c6_exec_pipe_protocol 42 "boom" (by decide)).2.2.2.1⟩

/-! ## Framework singleton (`framework/everest.hpp`, `Everest::get_instance`) -/

/-- The constructor arguments of the `Everest` framework object (the
config is embedded as an opaque identifier; the claim is only about
instance identity, not config contents). -/
structure EverestInstanceData where
  module_id : String
  config : Nat
  validate_data_with_schema : Bool
  mqtt_server_address : String
  mqtt_server_port : String
deriving DecidableEq, Repr

/-- `Everest::get_instance` (`everest.hpp` lines 141-146): a function-local
`static Everest instance(args...)`.  The process state is the optional
already-constructed instance; the first call constructs it from its
arguments, every later call returns the stored instance unchanged. -/
def get_instance (args : EverestInstanceData) (s : Option EverestInstanceData) :
    EverestInstanceData × Option EverestInstanceData :=
  match s with
  | some inst => (inst, some inst)
  | none => (args, some args)

/-- The two-argument overload: `mqtt_server_address` defaults to
`localhost` and `mqtt_server_port` to `1883` (`everest.hpp` lines 152-154). -/
def get_instance_default_server (module_id : String) (config : Nat)
    (validate_data_with_schema : Bool) (s : Option EverestInstanceData) :
    EverestInstanceData × Option EverestInstanceData :=
  get_instance ⟨module_id, config, validate_data_with_schema, "localhost", "1883"⟩ s

/-- The one-argument overload: schema validation defaults to enabled
(`everest.hpp` lines 159-161). -/
def get_instance_default_validate (module_id : String) (config : Nat)
    (s : Option EverestInstanceData) : EverestInstanceData × Option EverestInstanceData :=
  get_instance_default_server module_id config true s

/-! ## Claim C9 -/

/-- Claim C9: `Everest::get_instance` is a process-wide singleton — for
any process state and any two consecutive calls with arbitrary argument
values, the second call returns exactly the instance the first call
returned and leaves the stored instance unchanged, so the arguments of
every call after the first have no effect. -/
theorem c9_get_instance_singleton (s : Option EverestInstanceData)
    (args1 args2 : EverestInstanceData) :
    (get_instance args2 (get_instance args1 s).2).1 = (get_instance args1 s).1 ∧
      (get_instance args2 (get_instance args1 s).2).2 = (get_instance args1 s).2 := by
  cases s <;> simp [get_instance]

/-! ## Config document acceptance (`tests/test_config.cpp`, spec section 4.1) -/

/-- A JSON/YAML document as seen by the config loader. -/
inductive ConfigJson where
  | null
  | boolean (b : Bool)
  | number (n : Int)
  | str (s : String)
  | arr (elems : List ConfigJson)
  | obj (entries : List (String × ConfigJson))

/-- Modelled from the spec: the top-level acceptance rule of the config
loader (the `ManagerSettings`/`ManagerConfig` implementation is not in
src; only `tests/test_config.cpp` exercises it).  Spec section 4.1, edge
cases: empty, null and non-object config documents are accepted as "no
modules configured"; a config document whose top level is a string is a
fatal `ConfigError`.  `none` stands for an empty document; on success the
loader yields the `active_modules` entries (empty when there are none). -/
def load_config_document : Option ConfigJson → Except String (List (String × ConfigJson))
  | none => Except.ok []
  | some ConfigJson.null => Except.ok []
  | some (ConfigJson.str _) => Except.error "ConfigError: config document has a top-level string"
  | some (ConfigJson.obj entries) => Except.ok entries
  | some _ => Except.ok []

/-! ## Claim C8 -/

/-- Claim C8: empty, null and empty-object config documents load
successfully as configurations with no modules, while a document whose
top level is a string is rejected with a fatal configuration error. -/
theorem c8_config_document_acceptance :
    load_config_document none = Except.ok [] ∧
      load_config_document (some ConfigJson.null) = Except.ok [] ∧
      load_config_document (some (ConfigJson.obj [])) = Except.ok [] ∧
      (∀ s, ∃ msg, load_config_document (some (ConfigJson.str s)) = Except.error msg) :=
  ⟨rfl, rfl, rfl, fun _ => ⟨_, rfl⟩⟩

/-! ## Global error bus (`lib/error/error_manager_req_global.cpp`)

The `ErrorDatabase` collaborator (not part of src) is embedded as a plain
list store: `get_errors` with the type/sub-type/origin filters is
`List.filter` by identity, `add_error` appends, `remove_errors` removes
and returns all matching entries.  Subscribers are embedded as
registration identifiers; invoking a callback is recorded as a delivery
`(subscriber, kind, error)`.  `bus_log` records each executed fanout loop
once (what a subscriber registered from the start observes). -/

/-- An error instance; identity for deduplication is
`(type, sub_type, origin)` (spec section 3). -/
structure ErrorInstance where
  type : String
  sub_type : String
  origin_module : String
  origin_impl : String
  message : String
deriving DecidableEq, Repr

/-- The identity filter used by `on_error_raised` / `on_error_cleared`:
`TypeFilter`, `SubTypeFilter` and `OriginFilter` combined. -/
def same_identity (a b : ErrorInstance) : Bool :=
  decide (a.type = b.type ∧ a.sub_type = b.sub_type ∧
    a.origin_module = b.origin_module ∧ a.origin_impl = b.origin_impl)

/-- Kind of a fanned-out error event. -/
inductive ErrorEventKind where
  | raised
  | cleared
deriving DecidableEq, Repr

/-- State of `ErrorManagerReqGlobal` together with its database and the
observable callback invocations. -/
structure ErrorBusState where
  database : List ErrorInstance
  subscriptions : List Nat
  deliveries : List (Nat × ErrorEventKind × ErrorInstance)
  bus_log : List (ErrorEventKind × ErrorInstance)
deriving DecidableEq, Repr

/-- The empty bus: no active errors, no subscribers, nothing delivered. -/
def initErrorBus : ErrorBusState := ⟨[], [], [], []⟩

/-- `ErrorManagerReqGlobal::subscribe_global_all_errors` (lines 23-27):
append the new subscription to the list. -/
def subscribe_global_all_errors (s : ErrorBusState) (n : Nat) : ErrorBusState :=
  { s with subscriptions := s.subscriptions ++ [n] }

/-- `ErrorManagerReqGlobal::on_error_raised` (lines 34-57): drop unknown
types; ignore the error when its identity is already active; otherwise
add it to the database, re-query (the branch for a failed insertion is
kept, though unreachable for the list store), and invoke the raise
callback of every subscriber in registration order. -/
def on_error_raised (error_type_map : List String) (s : ErrorBusState)
    (e : ErrorInstance) : ErrorBusState :=
  if ¬ error_type_map.contains e.type then s
  else if ¬ (s.database.filter (same_identity e)).isEmpty then s
  else if ((s.database ++ [e]).filter (same_identity e)).length ≠ 1 then
    { s with database := s.database ++ [e] }
  else
    { database := s.database ++ [e]
      subscriptions := s.subscriptions
      deliveries := s.deliveries ++ s.subscriptions.map (fun n => (n, ErrorEventKind.raised, e))
      bus_log := s.bus_log ++ [(ErrorEventKind.raised, e)] }

/-- `ErrorManagerReqGlobal::on_error_cleared` (lines 59-86): drop unknown
types; ignore the clear when no matching error is active; otherwise remove
every matching error (the guards for more than one removed and for none
removed are kept, though unreachable for a deduplicated store), and invoke
the clear callback of every subscriber in registration order. -/
def on_error_cleared (error_type_map : List String) (s : ErrorBusState)
    (e : ErrorInstance) : ErrorBusState :=
  if ¬ error_type_map.contains e.type then s
  else if (s.database.filter (same_identity e)).isEmpty then s
  else if 1 < (s.database.filter (same_identity e)).length then
    { s with database := s.database.filter (fun x => ! same_identity e x) }
  else if (s.database.filter (same_identity e)).isEmpty then
    { s with database := s.database.filter (fun x => ! same_identity e x) }
  else
    { database := s.database.filter (fun x => ! same_identity e x)
      subscriptions := s.subscriptions
      deliveries := s.deliveries ++ s.subscriptions.map (fun n => (n, ErrorEventKind.cleared, e))
      bus_log := s.bus_log ++ [(ErrorEventKind.cleared, e)] }

/-- Commands driving the bus: a new global subscription, an incoming
raise, an incoming clear. -/
inductive ErrorBusCmd where
  | subscribe (n : Nat)
  | raiseError (e : ErrorInstance)
  | clearError (e : ErrorInstance)
deriving DecidableEq, Repr

/-- One bus step. -/
def stepErrorBus (error_type_map : List String) (s : ErrorBusState) :
    ErrorBusCmd → ErrorBusState
  | ErrorBusCmd.subscribe n => subscribe_global_all_errors s n
  | ErrorBusCmd.raiseError e => on_error_raised error_type_map s e
  | ErrorBusCmd.clearError e => on_error_cleared error_type_map s e

/-- Run a command sequence against the bus. -/
def runErrorBus (error_type_map : List String) (cmds : List ErrorBusCmd)
    (s : ErrorBusState) : ErrorBusState :=
  cmds.foldl (stepErrorBus error_type_map) s

/-! Identity helpers. -/

theorem same_identity_refl (e : ErrorInstance) : same_identity e e = true := by
  simp [same_identity]

theorem same_identity_symm (a b : ErrorInstance) : same_identity a b = same_identity b a := by
  simp only [same_identity, decide_eq_decide]
  constructor <;> (intro h; exact ⟨h.1.symm, h.2.1.symm, h.2.2.1.symm, h.2.2.2.symm⟩)

theorem same_identity_trans {a b c : ErrorInstance} (h1 : same_identity a b = true)
    (h2 : same_identity b c = true) : same_identity a c = true := by
  simp only [same_identity, decide_eq_true_eq] at h1 h2 ⊢
  exact ⟨h1.1.trans h2.1, h1.2.1.trans h2.2.1, h1.2.2.1.trans h2.2.2.1,
    h1.2.2.2.trans h2.2.2.2⟩

/-- When `a` and `b` share an identity, they filter identically. -/
theorem filter_same_identity_congr {a b : ErrorInstance} (hab : same_identity a b = true)
    (l : List ErrorInstance) :
    l.filter (same_identity a) = l.filter (same_identity b) := by
  apply List.filter_congr
  intro x _
  by_cases hbx : same_identity b x = true
  · rw [hbx, same_identity_trans hab hbx]
  · simp only [Bool.not_eq_true] at hbx
    rw [hbx]
    by_contra hax
    simp only [Bool.not_eq_false] at hax
    have := same_identity_trans (same_identity_symm a b ▸ hab) hax
    rw [same_identity_symm] at hab
    have hbx' := same_identity_trans hab hax
    rw [hbx'] at hbx
    cases hbx

/-! Alternation machinery for the per-identity event sequences. -/

/-- The kind expected after `k` in a `(raise, clear)+` alternation. -/
def flipKind : ErrorEventKind → ErrorEventKind
  | ErrorEventKind.raised => ErrorEventKind.cleared
  | ErrorEventKind.cleared => ErrorEventKind.raised

/-- Consume a kind sequence, expecting `k` first and alternating; `none`
means the sequence is not an alternation from `k`. -/
def altRun (k : ErrorEventKind) : List ErrorEventKind → Option ErrorEventKind
  | [] => some k
  | k2 :: rest => if k = k2 then altRun (flipKind k) rest else none

/-- A kind sequence is a prefix of `(raise, clear)+` exactly when it is an
alternation starting from `raised`. -/
def alternationOk (l : List ErrorEventKind) : Bool :=
  (altRun ErrorEventKind.raised l).isSome

theorem altRun_append_single (k : ErrorEventKind) (l : List ErrorEventKind)
    (k2 : ErrorEventKind) :
    altRun k (l ++ [k2]) =
      match altRun k l with
      | some k3 => if k3 = k2 then some (flipKind k3) else none
      | none => none := by
  induction l generalizing k with
  | nil => simp [altRun]
  | cons a rest ih =>
    simp only [List.cons_append, altRun]
    by_cases h : k = a
    · rw [if_pos h, if_pos h]
      exact ih (flipKind k)
    · rw [if_neg h, if_neg h]

/-- The kind sequence recorded in a fanout log for one identity
(represented by a witness error instance). -/
def kindsFor (e : ErrorInstance) (log : List (ErrorEventKind × ErrorInstance)) :
    List ErrorEventKind :=
  (log.filter (fun d => same_identity e d.2)).map (fun d => d.1)

/-- The per-identity sequence of fanout occurrences of the bus. -/
def busKindsFor (e : ErrorInstance) (s : ErrorBusState) : List ErrorEventKind :=
  kindsFor e s.bus_log

/-- The per-identity sequence of events delivered to one subscriber. -/
def subscriberKindsFor (n : Nat) (e : ErrorInstance) (s : ErrorBusState) :
    List ErrorEventKind :=
  (s.deliveries.filter (fun d => d.1 == n && same_identity e d.2.2)).map (fun d => d.2.1)

theorem kindsFor_append_single (e : ErrorInstance)
    (log : List (ErrorEventKind × ErrorInstance)) (d : ErrorEventKind × ErrorInstance) :
    kindsFor e (log ++ [d]) =
      kindsFor e log ++ (if same_identity e d.2 = true then [d.1] else []) := by
  unfold kindsFor
  rw [List.filter_append, List.map_append]
  by_cases h : same_identity e d.2 = true <;> simp [h]

/-! Step characterizations of the two handlers. -/

theorem on_error_raised_unknown (error_type_map : List String) (s : ErrorBusState)
    (e : ErrorInstance) (hk : error_type_map.contains e.type = false) :
    on_error_raised error_type_map s e = s := by
  unfold on_error_raised
  exact if_pos (by simp_all)

theorem on_error_raised_already_active (error_type_map : List String) (s : ErrorBusState)
    (e : ErrorInstance) (hk : error_type_map.contains e.type = true)
    (hact : (s.database.filter (same_identity e)).isEmpty = false) :
    on_error_raised error_type_map s e = s := by
  unfold on_error_raised
  rw [if_neg (by simp_all), if_pos (by simp [hact])]

theorem on_error_raised_delivered (error_type_map : List String) (s : ErrorBusState)
    (e : ErrorInstance) (hk : error_type_map.contains e.type = true)
    (hempty : (s.database.filter (same_identity e)).isEmpty = true) :
    on_error_raised error_type_map s e =
      { database := s.database ++ [e]
        subscriptions := s.subscriptions
        deliveries := s.deliveries ++ s.subscriptions.map (fun n => (n, ErrorEventKind.raised, e))
        bus_log := s.bus_log ++ [(ErrorEventKind.raised, e)] } := by
  have hnil : s.database.filter (same_identity e) = [] := List.isEmpty_iff.mp hempty
  have hone : (s.database ++ [e]).filter (same_identity e) = [e] := by
    rw [List.filter_append, hnil]
    simp [same_identity_refl]
  unfold on_error_raised
  rw [if_neg (by simp_all), if_neg (by simp [hnil]), if_neg (by simp [hone])]

theorem on_error_cleared_unknown (error_type_map : List String) (s : ErrorBusState)
    (e : ErrorInstance) (hk : error_type_map.contains e.type = false) :
    on_error_cleared error_type_map s e = s := by
  unfold on_error_cleared
  exact if_pos (by simp_all)

theorem on_error_cleared_not_active (error_type_map : List String) (s : ErrorBusState)
    (e : ErrorInstance) (hk : error_type_map.contains e.type = true)
    (hempty : (s.database.filter (same_identity e)).isEmpty = true) :
    on_error_cleared error_type_map s e = s := by
  unfold on_error_cleared
  rw [if_neg (by simp_all), if_pos hempty]

theorem on_error_cleared_delivered (error_type_map : List String) (s : ErrorBusState)
    (e : ErrorInstance) (hk : error_type_map.contains e.type = true)
    (hone : (s.database.filter (same_identity e)).length = 1) :
    on_error_cleared error_type_map s e =
      { database := s.database.filter (fun x => ! same_identity e x)
        subscriptions := s.subscriptions
        deliveries := s.deliveries ++ s.subscriptions.map (fun n => (n, ErrorEventKind.cleared, e))
        bus_log := s.bus_log ++ [(ErrorEventKind.cleared, e)] } := by
  obtain ⟨a, ha⟩ := List.length_eq_one.mp hone
  unfold on_error_cleared
  rw [if_neg (by simp_all), if_neg (by simp [ha]), if_neg (by simp [ha]),
    if_neg (by simp [ha])]

/-! The bus invariant: for every identity, the fanout log alternates and
its parity matches whether the identity is active, and at most one active
error has any given identity. -/

/-- Invariant relating an active-error database and a fanout log. -/
def InvDbLog (db : List ErrorInstance) (log : List (ErrorEventKind × ErrorInstance)) : Prop :=
  ∀ e : ErrorInstance,
    altRun ErrorEventKind.raised (kindsFor e log) =
      some (if (db.filter (same_identity e)).isEmpty then ErrorEventKind.raised
        else ErrorEventKind.cleared) ∧
    (db.filter (same_identity e)).length ≤ 1

/-- The bus invariant. -/
def BusInv (s : ErrorBusState) : Prop := InvDbLog s.database s.bus_log

/-- Every delivery carries a known error type. -/
def DeliveriesKnown (error_type_map : List String) (s : ErrorBusState) : Prop :=
  ∀ d ∈ s.deliveries, error_type_map.contains d.2.2.type = true

theorem invDbLog_raise (db : List ErrorInstance)
    (log : List (ErrorEventKind × ErrorInstance)) (e0 : ErrorInstance)
    (h : InvDbLog db log) (hnil0 : db.filter (same_identity e0) = []) :
    InvDbLog (db ++ [e0]) (log ++ [(ErrorEventKind.raised, e0)]) := by
  intro e
  rw [kindsFor_append_single]
  by_cases hee0 : same_identity e e0 = true
  · have hnil : db.filter (same_identity e) = [] := by
      rw [filter_same_identity_congr hee0]; exact hnil0
    have hfil : (db ++ [e0]).filter (same_identity e) = [e0] := by
      rw [List.filter_append, hnil]; simp [hee0]
    obtain ⟨h1, h2⟩ := h e
    rw [hnil] at h1
    simp only [List.isEmpty_nil, if_pos] at h1
    constructor
    · rw [if_pos hee0, altRun_append_single, h1, hfil]
      simp [flipKind]
    · rw [hfil]
      simp
  · have hfil : (db ++ [e0]).filter (same_identity e) = db.filter (same_identity e) := by
      rw [List.filter_append]
      simp [hee0]
    obtain ⟨h1, h2⟩ := h e
    rw [if_neg hee0, hfil, List.append_nil]
    exact ⟨h1, h2⟩

theorem invDbLog_clear (db : List ErrorInstance)
    (log : List (ErrorEventKind × ErrorInstance)) (e0 : ErrorInstance)
    (h : InvDbLog db log) (hne : db.filter (same_identity e0) ≠ []) :
    InvDbLog (db.filter (fun x => ! same_identity e0 x))
      (log ++ [(ErrorEventKind.cleared, e0)]) := by
  intro e
  rw [kindsFor_append_single]
  by_cases hee0 : same_identity e e0 = true
  · have hne' : db.filter (same_identity e) ≠ [] := by
      rw [filter_same_identity_congr hee0]; exact hne
    obtain ⟨h1, h2⟩ := h e
    have hempty_false : (db.filter (same_identity e)).isEmpty = false := by
      cases hfe : (db.filter (same_identity e)).isEmpty
      · rfl
      · exact absurd (List.isEmpty_iff.mp hfe) hne'
    rw [hempty_false] at h1
    simp only [Bool.false_eq_true, if_neg, if_false] at h1
    have hnil_new : (db.filter (fun x => ! same_identity e0 x)).filter (same_identity e) = [] := by
      rw [List.filter_filter, List.filter_eq_nil_iff]
      intro x _
      by_cases hex : same_identity e x = true
      · have he0e : same_identity e0 e = true := by
          rw [same_identity_symm] at hee0; exact hee0
        have he0x : same_identity e0 x = true := same_identity_trans he0e hex
        simp [hex, he0x]
      · simp [hex]
    constructor
    · rw [if_pos hee0, altRun_append_single, h1, hnil_new]
      simp [flipKind]
    · rw [hnil_new]
      simp
  · have hfil : (db.filter (fun x => ! same_identity e0 x)).filter (same_identity e) =
        db.filter (same_identity e) := by
      rw [List.filter_filter]
      apply List.filter_congr
      intro x _
      by_cases hex : same_identity e x = true
      · have he0x : same_identity e0 x = false := by
          by_contra hc
          simp only [Bool.not_eq_false] at hc
          have hxe0 : same_identity x e0 = true := by
            rw [same_identity_symm] at hc; exact hc
          exact hee0 (same_identity_trans hex hxe0)
        simp [hex, he0x]
      · simp [hex]
    obtain ⟨h1, h2⟩ := h e
    rw [if_neg hee0, hfil, List.append_nil]
    exact ⟨h1, h2⟩

theorem busInv_on_error_raised (error_type_map : List String) (s : ErrorBusState)
    (e0 : ErrorInstance) (hinv : BusInv s) : BusInv (on_error_raised error_type_map s e0) := by
  by_cases hk : error_type_map.contains e0.type = true
  · by_cases hemp : (s.database.filter (same_identity e0)).isEmpty = true
    · rw [on_error_raised_delivered error_type_map s e0 hk hemp]
      show InvDbLog (s.database ++ [e0]) (s.bus_log ++ [(ErrorEventKind.raised, e0)])
      exact invDbLog_raise _ _ _ hinv (List.isEmpty_iff.mp hemp)
    · rw [on_error_raised_already_active error_type_map s e0 hk (by simpa using hemp)]
      exact hinv
  · rw [on_error_raised_unknown error_type_map s e0 (by simpa using hk)]
    exact hinv

theorem busInv_on_error_cleared (error_type_map : List String) (s : ErrorBusState)
    (e0 : ErrorInstance) (hinv : BusInv s) : BusInv (on_error_cleared error_type_map s e0) := by
  by_cases hk : error_type_map.contains e0.type = true
  · by_cases hemp : (s.database.filter (same_identity e0)).isEmpty = true
    · rw [on_error_cleared_not_active error_type_map s e0 hk hemp]
      exact hinv
    · have hne : s.database.filter (same_identity e0) ≠ [] := by
        intro hnil
        exact hemp (by simp [hnil])
      have hone : (s.database.filter (same_identity e0)).length = 1 := by
        have hpos : 0 < (s.database.filter (same_identity e0)).length :=
          List.length_pos.mpr hne
        have hle := (hinv e0).2
        omega
      rw [on_error_cleared_delivered error_type_map s e0 hk hone]
      show InvDbLog (s.database.filter (fun x => ! same_identity e0 x))
        (s.bus_log ++ [(ErrorEventKind.cleared, e0)])
      exact invDbLog_clear _ _ _ hinv hne
  · rw [on_error_cleared_unknown error_type_map s e0 (by simpa using hk)]
    exact hinv

theorem deliveriesKnown_on_error_raised (error_type_map : List String) (s : ErrorBusState)
    (e0 : ErrorInstance) (h : DeliveriesKnown error_type_map s) :
    DeliveriesKnown error_type_map (on_error_raised error_type_map s e0) := by
  by_cases hk : error_type_map.contains e0.type = true
  · by_cases hemp : (s.database.filter (same_identity e0)).isEmpty = true
    · rw [on_error_raised_delivered error_type_map s e0 hk hemp]
      intro d hd
      rcases List.mem_append.mp hd with h1 | h1
      · exact h d h1
      · obtain ⟨n, _, rfl⟩ := List.mem_map.mp h1
        exact hk
    · rw [on_error_raised_already_active error_type_map s e0 hk (by simpa using hemp)]
      exact h
  · rw [on_error_raised_unknown error_type_map s e0 (by simpa using hk)]
    exact h

theorem deliveriesKnown_on_error_cleared (error_type_map : List String) (s : ErrorBusState)
    (e0 : ErrorInstance) (hinv : BusInv s) (h : DeliveriesKnown error_type_map s) :
    DeliveriesKnown error_type_map (on_error_cleared error_type_map s e0) := by
  by_cases hk : error_type_map.contains e0.type = true
  · by_cases hemp : (s.database.filter (same_identity e0)).isEmpty = true
    · rw [on_error_cleared_not_active error_type_map s e0 hk hemp]
      exact h
    · have hne : s.database.filter (same_identity e0) ≠ [] := by
        intro hnil
        exact hemp (by simp [hnil])
      have hone : (s.database.filter (same_identity e0)).length = 1 := by
        have hpos : 0 < (s.database.filter (same_identity e0)).length :=
          List.length_pos.mpr hne
        have hle := (hinv e0).2
        omega
      rw [on_error_cleared_delivered error_type_map s e0 hk hone]
      intro d hd
      rcases List.mem_append.mp hd with h1 | h1
      · exact h d h1
      · obtain ⟨n, _, rfl⟩ := List.mem_map.mp h1
        exact hk
  · rw [on_error_cleared_unknown error_type_map s e0 (by simpa using hk)]
    exact h

theorem runErrorBus_invariants (error_type_map : List String) (cmds : List ErrorBusCmd)
    (s : ErrorBusState) (hinv : BusInv s) (hdel : DeliveriesKnown error_type_map s) :
    BusInv (runErrorBus error_type_map cmds s) ∧
      DeliveriesKnown error_type_map (runErrorBus error_type_map cmds s) := by
  induction cmds generalizing s with
  | nil => exact ⟨hinv, hdel⟩
  | cons c rest ih =>
    rw [show runErrorBus error_type_map (c :: rest) s =
      runErrorBus error_type_map rest (stepErrorBus error_type_map s c) from rfl]
    apply ih
    · cases c with
      | subscribe n => exact hinv
      | raiseError e => exact busInv_on_error_raised error_type_map s e hinv
      | clearError e => exact busInv_on_error_cleared error_type_map s e hinv
    · cases c with
      | subscribe n => exact hdel
      | raiseError e => exact deliveriesKnown_on_error_raised error_type_map s e hdel
      | clearError e => exact deliveriesKnown_on_error_cleared error_type_map s e hinv hdel

/-! ## Claim C3 -/

/-- Claim C3: for every raised error with a known type — if an error with
the same `(type, sub_type, origin)` identity is already active, the raise
is logged and ignored and the state (in particular the active set) is
unchanged; otherwise the error is inserted into the active set and the
raise callback of every subscriber is invoked, once each, in registration
order. -/
theorem c3_raise_dedup_and_fanout (error_type_map : List String) (s : ErrorBusState)
    (e : ErrorInstance) (hk : error_type_map.contains e.type = true) :
    ((s.database.filter (same_identity e)).isEmpty = false →
      on_error_raised error_type_map s e = s) ∧
    ((s.database.filter (same_identity e)).isEmpty = true →
      (on_error_raised error_type_map s e).database = s.database ++ [e] ∧
      (on_error_raised error_type_map s e).deliveries =
        s.deliveries ++ s.subscriptions.map (fun n => (n, ErrorEventKind.raised, e))) := by
  constructor
  · intro hact
    exact on_error_raised_already_active _ _ _ hk hact
  · intro hemp
    rw [on_error_raised_delivered _ _ _ hk hemp]
    exact ⟨rfl, rfl⟩

/-- Witness for claim C3: a duplicate raise of an active identity leaves
the bus untouched, and a raise of an inactive identity inserts it and fans
out to the single subscriber. -/
theorem c3_raise_dedup_and_fanout_witness :
    (["T"] : List String).contains (ErrorInstance.mk "T" "st" "m" "imp" "msg").type = true ∧
      (([(ErrorInstance.mk "T" "st" "m" "imp" "other")] : List ErrorInstance).filter
        (same_identity (ErrorInstance.mk "T" "st" "m" "imp" "msg"))).isEmpty = false ∧
      on_error_raised ["T"]
          ⟨[ErrorInstance.mk "T" "st" "m" "imp" "other"], [7], [], []⟩
          (ErrorInstance.mk "T" "st" "m" "imp" "msg") =
        ⟨[ErrorInstance.mk "T" "st" "m" "imp" "other"], [7], [], []⟩ ∧
      (on_error_raised ["T"] ⟨[], [5], [], []⟩ (ErrorInstance.mk "T" "st" "m" "imp" "msg")).database =
        [] ++ [ErrorInstance.mk "T" "st" "m" "imp" "msg"] ∧
      (on_error_raised ["T"] ⟨[], [5], [], []⟩
          (ErrorInstance.mk "T" "st" "m" "imp" "msg")).deliveries =
        [] ++ [5].map (fun n => (n, ErrorEventKind.raised, ErrorInstance.mk "T" "st" "m" "imp" "msg")) :=
  ⟨by decide, by decide,
    (c3_raise_dedup_and_fanout ["T"] ⟨[ErrorInstance.mk "T" "st" "m" "imp" "other"], [7], [], []⟩
      (ErrorInstance.mk "T" "st" "m" "imp" "msg") (by decide)).1 (by decide),
    ((c3_raise_dedup_and_fanout ["T"] ⟨[], [5], [], []⟩
      (ErrorInstance.mk "T" "st" "m" "imp" "msg") (by decide)).2 (by decide)).1,
    ((c3_raise_dedup_and_fanout ["T"] ⟨[], [5], [], []⟩
      (ErrorInstance.mk "T" "st" "m" "imp" "msg") (by decide)).2 (by decide)).2⟩

/-! ## Claim C4 -/

/-- Claim C4, counterexample: a subscriber that registers between a raise
and its clear observes the clear without the preceding raise, so its
delivered sequence for that identity is `[cleared]`, which is not a prefix
of `(raise, clear)+` — the claim does not hold for every subscriber. -/
theorem c4_late_subscriber_sees_bare_clear :
    alternationOk (subscriberKindsFor 1 (ErrorInstance.mk "T" "st" "m" "imp" "msg")
        (runErrorBus ["T"]
          [ErrorBusCmd.subscribe 0,
            ErrorBusCmd.raiseError (ErrorInstance.mk "T" "st" "m" "imp" "msg"),
            ErrorBusCmd.subscribe 1,
            ErrorBusCmd.clearError (ErrorInstance.mk "T" "st" "m" "imp" "msg")]
          initErrorBus)) = false ∧
      1 ∈ (runErrorBus ["T"]
          [ErrorBusCmd.subscribe 0,
            ErrorBusCmd.raiseError (ErrorInstance.mk "T" "st" "m" "imp" "msg"),
            ErrorBusCmd.subscribe 1,
            ErrorBusCmd.clearError (ErrorInstance.mk "T" "st" "m" "imp" "msg")]
          initErrorBus).subscriptions := by
  constructor
  · rfl
  · decide

/-- Claim C4, amended: for every error identity, the sequence of fanout
events executed by the bus for that identity (which is exactly what a
subscriber registered from the start observes) is a prefix of alternating
`(raise, clear)+` — a clear is fanned out only for a currently active
identity and a second raise of an active identity is never fanned out —
and events whose error type is not in the `ErrorTypeMap` are never
delivered to any subscriber.  (A subscriber that registers mid-episode
may first observe a bare clear.) -/
theorem c4_fanout_alternation (error_type_map : List String) (cmds : List ErrorBusCmd)
    (e : ErrorInstance) :
    alternationOk (busKindsFor e (runErrorBus error_type_map cmds initErrorBus)) = true ∧
      ∀ d ∈ (runErrorBus error_type_map cmds initErrorBus).deliveries,
        error_type_map.contains d.2.2.type = true := by
  have hinit_inv : BusInv initErrorBus := by
    intro e
    constructor
    · simp [kindsFor, altRun, initErrorBus]
    · simp [initErrorBus]
  have hinit_del : DeliveriesKnown error_type_map initErrorBus := by
    intro d hd
    simp [initErrorBus] at hd
  obtain ⟨hinv, hdel⟩ := runErrorBus_invariants error_type_map cmds initErrorBus hinit_inv hinit_del
  refine ⟨?_, hdel⟩
  have h1 := (hinv e).1
  rw [alternationOk]
  rw [show busKindsFor e (runErrorBus error_type_map cmds initErrorBus) =
    kindsFor e (runErrorBus error_type_map cmds initErrorBus).bus_log from rfl]
  rw [h1]
  rfl

/-- Witness for the amended claim C4 at a concrete run with one delivery. -/
theorem c4_fanout_alternation_witness :
    alternationOk (busKindsFor (ErrorInstance.mk "T" "st" "m" "imp" "msg")
        (runErrorBus ["T"]
          [ErrorBusCmd.subscribe 0,
            ErrorBusCmd.raiseError (ErrorInstance.mk "T" "st" "m" "imp" "msg")]
          initErrorBus)) = true ∧
      (0, ErrorEventKind.raised, ErrorInstance.mk "T" "st" "m" "imp" "msg") ∈
        (runErrorBus ["T"]
          [ErrorBusCmd.subscribe 0,
            ErrorBusCmd.raiseError (ErrorInstance.mk "T" "st" "m" "imp" "msg")]
          initErrorBus).deliveries ∧
      (["T"] : List String).contains
        ((0, ErrorEventKind.raised, ErrorInstance.mk "T" "st" "m" "imp" "msg").2.2.type) = true :=
  ⟨(c4_fanout_alternation ["T"]
      [ErrorBusCmd.subscribe 0,
        ErrorBusCmd.raiseError (ErrorInstance.mk "T" "st" "m" "imp" "msg")]
      (ErrorInstance.mk "T" "st" "m" "imp" "msg")).1,
    by decide,
    (c4_fanout_alternation ["T"]
      [ErrorBusCmd.subscribe 0,
        ErrorBusCmd.raiseError (ErrorInstance.mk "T" "st" "m" "imp" "msg")]
      (ErrorInstance.mk "T" "st" "m" "imp" "msg")).2
      (0, ErrorEventKind.raised, ErrorInstance.mk "T" "st" "m" "imp" "msg") (by decide)⟩

/-! ## Claim C10 -/

/-- Claim C10: for every delivered error event (raise or clear), the
global subscriber callbacks are each invoked exactly once, in the order
the subscriptions were registered via `subscribe_global_all_errors` (the
fanout block is exactly the subscription list mapped in order), and
subscribing appends to the subscription list without removing or
reordering existing subscriptions or touching past deliveries. -/
theorem c10_fanout_registration_order (error_type_map : List String) (s : ErrorBusState)
    (e : ErrorInstance) (hk : error_type_map.contains e.type = true) :
    ((s.database.filter (same_identity e)).isEmpty = true →
      (on_error_raised error_type_map s e).deliveries =
        s.deliveries ++ s.subscriptions.map (fun n => (n, ErrorEventKind.raised, e)) ∧
      (on_error_raised error_type_map s e).subscriptions = s.subscriptions) ∧
    ((s.database.filter (same_identity e)).length = 1 →
      (on_error_cleared error_type_map s e).deliveries =
        s.deliveries ++ s.subscriptions.map (fun n => (n, ErrorEventKind.cleared, e)) ∧
      (on_error_cleared error_type_map s e).subscriptions = s.subscriptions) ∧
    (∀ n, (subscribe_global_all_errors s n).subscriptions = s.subscriptions ++ [n] ∧
      (subscribe_global_all_errors s n).deliveries = s.deliveries) := by
  refine ⟨fun hemp => ?_, fun hone => ?_, fun n => ⟨rfl, rfl⟩⟩
  · rw [on_error_raised_delivered _ _ _ hk hemp]
    exact ⟨rfl, rfl⟩
  · rw [on_error_cleared_delivered _ _ _ hk hone]
    exact ⟨rfl, rfl⟩

/-- Witness for claim C10: with subscribers `3` then `4`, a raise fans out
to `3` first and `4` second, and a clear of the active identity likewise;
subscribing `9` appends it at the end. -/
theorem c10_fanout_registration_order_witness :
    (["T"] : List String).contains (ErrorInstance.mk "T" "st" "m" "imp" "msg").type = true ∧
      (on_error_raised ["T"] ⟨[], [3, 4], [], []⟩
          (ErrorInstance.mk "T" "st" "m" "imp" "msg")).deliveries =
        [] ++ [3, 4].map (fun n => (n, ErrorEventKind.raised, ErrorInstance.mk "T" "st" "m" "imp" "msg")) ∧
      (on_error_cleared ["T"]
          ⟨[ErrorInstance.mk "T" "st" "m" "imp" "msg"], [3, 4], [], []⟩
          (ErrorInstance.mk "T" "st" "m" "imp" "msg")).deliveries =
        [] ++ [3, 4].map (fun n => (n, ErrorEventKind.cleared, ErrorInstance.mk "T" "st" "m" "imp" "msg")) ∧
      (subscribe_global_all_errors ⟨[], [3, 4], [], []⟩ 9).subscriptions = [3, 4] ++ [9] :=
  ⟨by decide,
    ((c10_fanout_registration_order ["T"] ⟨[], [3, 4], [], []⟩
      (ErrorInstance.mk "T" "st" "m" "imp" "msg") (by decide)).1 (by decide)).1,
    ((c10_fanout_registration_order ["T"]
      ⟨[ErrorInstance.mk "T" "st" "m" "imp" "msg"], [3, 4], [], []⟩
      (ErrorInstance.mk "T" "st" "m" "imp" "msg") (by decide)).2.1 (by decide)).1,
    ((c10_fanout_registration_order ["T"] ⟨[], [3, 4], [], []⟩
      (ErrorInstance.mk "T" "st" "m" "imp" "msg") (by decide)).2.2 9).1⟩

end Everest
